/-
Verification of the NudgeAI compliance-gated delivery engine.

This file gives a shallow embedding, in Lean 4, of the pure logic of the
compliance service (src/analytics-update/interfaces.ts: ComplianceService
and its utility functions) and of the communication-service retry/error
helpers (src/communication-service/utils.ts), together with theorems that
settle the frozen claims about that code.

Modelling conventions (applied uniformly, noted locally where relevant):
* JavaScript timestamps and Date values are modelled as `Int` milliseconds
  since the Unix epoch.  Local time is identified with UTC (the source
  itself uses the ambient local clock and does not convert timezones; its
  own comment says timezone conversion is not handled).  Daylight-saving
  shifts are not modelled: days are uniform 86400000 ms intervals.
  JS `Date` field extraction uses floor division, which for the positive
  divisors used here coincides with Euclidean division, i.e. with `/` and
  `%` on `Int` in this toolchain.
* Each embedded function takes the ambient clock (`Date.now()` /
  `new Date()`) as an explicit `now : Int` parameter, and the random tag
  used in generated identifiers (`Math.random().toString(36).substr(2,9)`)
  as an explicit `randTag : String` parameter.  A single evaluation is
  modelled as happening at one instant, so intra-call elapsed times
  (`Date.now() - startTime`) are 0.
* ISO timestamp strings stored in records are modelled as the `Int`
  timestamps they denote; `undefined` optional fields are `Option.none`.
  (JS truthiness on a set, non-empty date string agrees with `isSome`.)
* JS numbers are modelled as `Int`/`Nat` where the source only ever holds
  integers, and as `ℚ` for the retry-delay arithmetic.  The one fractional
  literal in the compliance code, `* 0.8`, is modelled exactly by the
  integer comparison `5 * n ≥ 4 * cap`; for integer counts and caps this
  agrees with the IEEE-double evaluation of `n >= cap * 0.8` (the float
  product differs from 4·cap/5 by well under the distance to the nearest
  integer, and lands exactly on it when 4·cap/5 is an integer).
* String matching (`String.prototype.includes`, `toLowerCase`) is modelled
  by executable character-list functions defined below (ASCII-faithful).
-/
import Mathlib

set_option maxRecDepth 10000

/-! ## JS string primitives -/

/-- `leadsWith p l` is true when the character list `l` begins with `p`
(the executable prefix test used to model `String.prototype.startsWith`
and as the kernel of the substring test). -/
def leadsWith : List Char → List Char → Bool
  | [], _ => true
  | _ :: _, [] => false
  | a :: as, b :: bs => decide (a = b) && leadsWith as bs

/-- `occursIn p l` is true when `p` occurs contiguously inside `l`. -/
def occursIn (p : List Char) : List Char → Bool
  | [] => leadsWith p []
  | b :: rest => leadsWith p (b :: rest) || occursIn p rest

/-- Model of `s.includes(pat)` on JS strings. -/
def jsIncludes (s pat : String) : Bool := occursIn pat.data s.data

/-- Model of `s.toLowerCase()` (ASCII-faithful). -/
def strLower (s : String) : String := String.mk (s.data.map Char.toLower)

/-- Model of `s.startsWith(pat)`; used only to state claim predicates. -/
def strStartsWith (s pat : String) : Bool := leadsWith pat.data s.data

/-- `Array.prototype.join(', ')` on a list of strings. -/
def joinComma : List String → String
  | [] => ""
  | [x] => x
  | x :: xs => x ++ ", " ++ joinComma xs

/-! ## JS date arithmetic

`t` is a timestamp in ms.  `jsDay` is the calendar-day index (so
`new Date(a).toDateString() === new Date(b).toDateString()` is
`jsDay a = jsDay b`), `jsHour` is `getHours()`, `jsDayOfWeek` is
`getDay()` (day 0 of the epoch was a Thursday, hence the `+ 4`). -/

def jsDay (t : Int) : Int := t / 86400000

def jsHour (t : Int) : Int := t % 86400000 / 3600000

def jsDayOfWeek (t : Int) : Int := (jsDay t + 4) % 7

/-- `d.setHours(h, 0, 0, 0)`: same calendar day, time of day `h`:00:00.000. -/
def jsSetHours (t h : Int) : Int := jsDay t * 86400000 + h * 3600000

/-- `d.setDate(d.getDate() + n)`: shift by whole days, keeping time of day. -/
def jsAddDays (t n : Int) : Int := t + n * 86400000

/-- `Math.ceil(a / b)` for integer `a` and positive integer `b`. -/
def jsCeilDiv (a b : Int) : Int := -(-a / b)

/-! ## Data model (src/analytics-update interfaces)

Free-text presentation fields are kept (`description`, `suggestedFix`,
`regulation`, `section`, `recommendation`) because the audit entry and the
recommended actions read them; the two numeric interpolations that format
floats (`toFixed(1)` in the FDCPA spacing message and the fractional-hours
remainder in its suggested fix) are omitted from the corresponding message
strings, since float formatting is not modelled. -/

inductive Channel
  | email
  | sms
  | phone
deriving DecidableEq, Repr

inductive Strategy
  | reminder
  | negotiation
  | final_notice
deriving DecidableEq, Repr

inductive Severity
  | low
  | medium
  | high
deriving DecidableEq, Repr

inductive ViolationType
  | TCPA_TIME_RESTRICTION
  | FDCPA_DISCLOSURE_MISSING
  | FDCPA_HARASSMENT
  | TCPA_CONSENT_MISSING
  | CONTENT_PROHIBITED
deriving DecidableEq, Repr

inductive WarningType
  | FREQUENCY_LIMIT
  | CONTENT_RISK
  | TIME_BOUNDARY
  | CONSENT_EXPIRING
deriving DecidableEq, Repr

inductive ConsentMethod
  | written
  | electronic
  | verbal
deriving DecidableEq, Repr

inductive ContactFrequency
  | low
  | medium
  | high
deriving DecidableEq, Repr

inductive AuditResult
  | PASS
  | FAIL
  | WARNING
deriving DecidableEq, Repr

structure ComplianceViolation where
  type : ViolationType
  severity : Severity
  description : String
  regulation : String
  section' : Option String
  suggestedFix : Option String
deriving DecidableEq, Repr

structure ComplianceWarning where
  type : WarningType
  severity : Severity
  description : String
  recommendation : Option String
deriving DecidableEq, Repr

structure AuditEntry where
  id : String
  timestamp : Int
  customerId : String
  communicationId : String
  checkType : String
  result : AuditResult
  violations : List String
  warnings : List String
  processingTimeMs : Int
deriving DecidableEq, Repr

structure CallingHours where
  start : Int
  end' : Int
deriving DecidableEq, Repr

structure TcpaComplianceRule where
  callingHours : CallingHours
  maxDailyCalls : Nat
  maxWeeklyCalls : Nat
  maxDailyTexts : Nat
  maxWeeklyTexts : Nat
  consentRequired : Bool
  consentExpirationDays : Nat
  prohibitedContent : List String
deriving DecidableEq, Repr

structure CallFrequencyRules where
  minHoursBetweenCalls : Int
  minDaysBetweenThirdPartyContact : Int
deriving DecidableEq, Repr

structure RequiredContentElements where
  identityDisclosure : Bool
  purposeDisclosure : Bool
  debtValidationNotice : Bool
  rightsDisclosure : Bool
deriving DecidableEq, Repr

structure FdcpaComplianceRule where
  requiredDisclosures : List String
  prohibitedPractices : List String
  maxDailyContacts : Nat
  maxWeeklyContacts : Nat
  callFrequencyRules : CallFrequencyRules
  requiredContentElements : RequiredContentElements
deriving DecidableEq, Repr

structure ComplianceRuleSet where
  tcpa : TcpaComplianceRule
  fdcpa : FdcpaComplianceRule
  lastUpdated : Int
  version : String
deriving DecidableEq, Repr

structure ConsentRecord where
  id : String
  type : Channel
  granted : Bool
  timestamp : Int
  method : ConsentMethod
  ipAddress : Option String
  userAgent : Option String
  expiresAt : Option Int
  revokedAt : Option Int
deriving DecidableEq, Repr

structure CommunicationComplianceRecord where
  id : String
  timestamp : Int
  channel : Channel
  strategy : Strategy
  compliant : Bool
  violations : List String
  warnings : List String
  processingTimeMs : Int
deriving DecidableEq, Repr

structure QuietHours where
  start : String
  end' : String
deriving DecidableEq, Repr

structure ContactPreferences where
  preferredChannel : Option Channel
  contactFrequency : ContactFrequency
  quietHours : Option QuietHours
deriving DecidableEq, Repr

structure CustomerComplianceProfile where
  customerId : String
  contactPreferences : ContactPreferences
  consentHistory : List ConsentRecord
  communicationHistory : List CommunicationComplianceRecord
  violationHistory : List ComplianceViolation
  riskScore : Int
  lastReviewDate : Option Int
deriving DecidableEq, Repr

/-- The request fields read by the evaluator; `customerConsent` and
`metadata` are never read by any of the embedded functions and are
omitted. -/
structure ComplianceCheckRequest where
  customerId : String
  communicationId : String
  content : String
  channel : Channel
  strategy : Strategy
  customerTimezone : Option String
deriving DecidableEq, Repr

structure ComplianceCheckResult where
  compliant : Bool
  violations : List ComplianceViolation
  warnings : List ComplianceWarning
  auditEntry : AuditEntry
  recommendedActions : List String
  canProceed : Bool
  nextAllowedTime : Option Int
deriving DecidableEq, Repr

/-- The `\x7b violations, warnings \x7d` pair returned by each individual
check function. -/
structure CheckFindings where
  violations : List ComplianceViolation
  warnings : List ComplianceWarning
deriving DecidableEq, Repr

def channelName : Channel → String
  | Channel.email => "email"
  | Channel.sms => "sms"
  | Channel.phone => "phone"

/-- `request.channel.toUpperCase()`. -/
def channelUpper : Channel → String
  | Channel.email => "EMAIL"
  | Channel.sms => "SMS"
  | Channel.phone => "PHONE"

def violationTypeName : ViolationType → String
  | ViolationType.TCPA_TIME_RESTRICTION => "TCPA_TIME_RESTRICTION"
  | ViolationType.FDCPA_DISCLOSURE_MISSING => "FDCPA_DISCLOSURE_MISSING"
  | ViolationType.FDCPA_HARASSMENT => "FDCPA_HARASSMENT"
  | ViolationType.TCPA_CONSENT_MISSING => "TCPA_CONSENT_MISSING"
  | ViolationType.CONTENT_PROHIBITED => "CONTENT_PROHIBITED"

def warningTypeName : WarningType → String
  | WarningType.FREQUENCY_LIMIT => "FREQUENCY_LIMIT"
  | WarningType.CONTENT_RISK => "CONTENT_RISK"
  | WarningType.TIME_BOUNDARY => "TIME_BOUNDARY"
  | WarningType.CONSENT_EXPIRING => "CONSENT_EXPIRING"

/-! ## Compliance utility functions (src/analytics-update utils) -/

/-- `containsProhibitedContent`: case-insensitive substring match of any
prohibited term. -/
def containsProhibitedContent (content : String) (prohibitedTerms : List String) : Bool :=
  prohibitedTerms.any (fun term => jsIncludes (strLower content) (strLower term))

structure DisclosureValidation where
  present : List String
  missing : List String
deriving DecidableEq, Repr

/-- `validateRequiredDisclosures`: keyword matching of each required
disclosure against the lowercased content. -/
def validateRequiredDisclosures (content : String) (requiredDisclosures : List String) :
    DisclosureValidation :=
  { present := requiredDisclosures.filter (fun d => jsIncludes (strLower content) (strLower d))
    missing := requiredDisclosures.filter (fun d => !jsIncludes (strLower content) (strLower d)) }

/-- Helper: `getWeekStart` — `d.setDate(d.getDate() - d.getDay())`, the
Sunday of `t`'s week at `t`'s own time of day. -/
def getWeekStart (t : Int) : Int := jsAddDays t (-(jsDayOfWeek t))

/-- The latest phone record:
`history.filter(phone).sort((a, b) => b.timestamp - a.timestamp)[0]`.
A stable descending sort puts the earliest among equal maxima first, which
is what the left fold below keeps. -/
def latestPhoneCall (history : List CommunicationComplianceRecord) :
    Option CommunicationComplianceRecord :=
  (history.filter (fun c => decide (c.channel = Channel.phone))).foldl
    (fun acc c =>
      match acc with
      | none => some c
      | some b => if c.timestamp > b.timestamp then some c else some b)
    none

/-- The consent block of `checkTcpaCompliance` (its first `if`). -/
def tcpaConsentViolations (request : ComplianceCheckRequest)
    (customerProfile : CustomerComplianceProfile) (rules : TcpaComplianceRule)
    (now : Int) : List ComplianceViolation :=
  if rules.consentRequired then
    match customerProfile.consentHistory.find?
        (fun c => decide (c.type = request.channel ∧ c.granted = true ∧ c.revokedAt = none)) with
    | none =>
        [{ type := ViolationType.TCPA_CONSENT_MISSING
           severity := Severity.high
           description := "Missing required consent for " ++ channelName request.channel ++
             " communication"
           regulation := "TCPA"
           section' := some "47 U.S.C. § 227"
           suggestedFix := some "Obtain explicit consent from customer before communication" }]
    | some consent =>
        match consent.expiresAt with
        | some e =>
            if e < now then
              [{ type := ViolationType.TCPA_CONSENT_MISSING
                 severity := Severity.high
                 description := "Consent for " ++ channelName request.channel ++ " has expired"
                 regulation := "TCPA"
                 section' := some "47 U.S.C. § 227"
                 suggestedFix := some "Renew consent from customer" }]
            else []
        | none => []
  else []

/-- The calling-hours block of `checkTcpaCompliance`. -/
def tcpaHourViolations (rules : TcpaComplianceRule) (now : Int) : List ComplianceViolation :=
  if jsHour now < rules.callingHours.start ∨ jsHour now > rules.callingHours.end' then
    [{ type := ViolationType.TCPA_TIME_RESTRICTION
       severity := Severity.high
       description := "Communication attempted outside allowed hours (" ++
         toString rules.callingHours.start ++ ":00 - " ++ toString rules.callingHours.end' ++
         ":00)"
       regulation := "TCPA"
       section' := some "47 C.F.R. § 64.1200"
       suggestedFix := some ("Wait until " ++ toString rules.callingHours.start ++
         ":00 to attempt communication") }]
  else []

/-- The per-channel frequency block of `checkTcpaCompliance`. -/
def tcpaFrequencyViolations (request : ComplianceCheckRequest)
    (customerProfile : CustomerComplianceProfile) (rules : TcpaComplianceRule)
    (now : Int) : List ComplianceViolation :=
  let todayComms := customerProfile.communicationHistory.filter
    (fun c => decide (jsDay c.timestamp = jsDay now ∧ c.channel = request.channel))
  let weekComms := customerProfile.communicationHistory.filter
    (fun c => decide (getWeekStart now ≤ c.timestamp ∧ c.channel = request.channel))
  if request.channel = Channel.sms ∨ request.channel = Channel.phone then
    let dailyLimit := if request.channel = Channel.sms then rules.maxDailyTexts
      else rules.maxDailyCalls
    let weeklyLimit := if request.channel = Channel.sms then rules.maxWeeklyTexts
      else rules.maxWeeklyCalls
    (if todayComms.length ≥ dailyLimit then
      [{ type := ViolationType.TCPA_CONSENT_MISSING
         severity := Severity.medium
         description := "Daily " ++ channelName request.channel ++ " limit exceeded (" ++
           toString todayComms.length ++ "/" ++ toString dailyLimit ++ ")"
         regulation := "TCPA"
         section' := none
         suggestedFix := some "Wait until tomorrow to send communication" }]
    else []) ++
    (if weekComms.length ≥ weeklyLimit then
      [{ type := ViolationType.TCPA_CONSENT_MISSING
         severity := Severity.medium
         description := "Weekly " ++ channelName request.channel ++ " limit exceeded (" ++
           toString weekComms.length ++ "/" ++ toString weeklyLimit ++ ")"
         regulation := "TCPA"
         section' := none
         suggestedFix := some "Wait until next week to send communication" }]
    else [])
  else []

/-- The prohibited-content block of `checkTcpaCompliance`. -/
def tcpaContentViolations (request : ComplianceCheckRequest) (rules : TcpaComplianceRule) :
    List ComplianceViolation :=
  if containsProhibitedContent request.content rules.prohibitedContent then
    [{ type := ViolationType.CONTENT_PROHIBITED
       severity := Severity.high
       description := "Communication contains prohibited content"
       regulation := "TCPA"
       section' := some "47 C.F.R. § 64.1200"
       suggestedFix := some "Remove prohibited content from communication" }]
  else []

/-- `checkTcpaCompliance(request, customerProfile, rules)` at instant
`now`: its four violation-pushing blocks in source order (it pushes no
warnings). -/
def checkTcpaCompliance (request : ComplianceCheckRequest)
    (customerProfile : CustomerComplianceProfile) (rules : TcpaComplianceRule)
    (now : Int) : CheckFindings :=
  { violations := tcpaConsentViolations request customerProfile rules now ++
      tcpaHourViolations rules now ++
      tcpaFrequencyViolations request customerProfile rules now ++
      tcpaContentViolations request rules
    warnings := [] }

/-- The four prohibited-practice phrases scanned by `checkFdcpaCompliance`. -/
def fdcpaProhibitedPatterns : List String :=
  ["threaten violence", "arrest without cause", "misrepresent amount", "false legal action"]

/-- The required-disclosure block of `checkFdcpaCompliance`. -/
def fdcpaDisclosureViolations (request : ComplianceCheckRequest)
    (rules : FdcpaComplianceRule) : List ComplianceViolation :=
  let disclosureValidation := validateRequiredDisclosures request.content rules.requiredDisclosures
  if disclosureValidation.missing.length > 0 then
    [{ type := ViolationType.FDCPA_DISCLOSURE_MISSING
       severity := Severity.high
       description := "Missing required FDCPA disclosures: " ++
         joinComma disclosureValidation.missing
       regulation := "FDCPA"
       section' := some "15 U.S.C. § 1692e"
       suggestedFix := some ("Include required disclosures: " ++
         joinComma disclosureValidation.missing) }]
  else []

/-- The all-channel daily-contact block of `checkFdcpaCompliance`. -/
def fdcpaContactViolations (customerProfile : CustomerComplianceProfile)
    (rules : FdcpaComplianceRule) (now : Int) : List ComplianceViolation :=
  let todayComms := customerProfile.communicationHistory.filter
    (fun c => decide (jsDay c.timestamp = jsDay now))
  if todayComms.length ≥ rules.maxDailyContacts then
    [{ type := ViolationType.FDCPA_HARASSMENT
       severity := Severity.high
       description := "Daily contact limit exceeded (" ++ toString todayComms.length ++ "/" ++
         toString rules.maxDailyContacts ++ ")"
       regulation := "FDCPA"
       section' := some "15 U.S.C. § 1692d"
       suggestedFix := some "Wait until tomorrow to attempt communication" }]
  else []

/-- The voice-call spacing block of `checkFdcpaCompliance`. -/
def fdcpaSpacingViolations (request : ComplianceCheckRequest)
    (customerProfile : CustomerComplianceProfile) (rules : FdcpaComplianceRule)
    (now : Int) : List ComplianceViolation :=
  match latestPhoneCall customerProfile.communicationHistory with
  | some lastCall =>
      if request.channel = Channel.phone ∧
          now - lastCall.timestamp < rules.callFrequencyRules.minHoursBetweenCalls * 3600000 then
        [{ type := ViolationType.FDCPA_HARASSMENT
           severity := Severity.medium
           description := "Insufficient time between calls"
           regulation := "FDCPA"
           section' := some "15 U.S.C. § 1692d"
           suggestedFix := some "Wait more hours before the next call" }]
      else []
  | none => []

/-- The prohibited-practice block of `checkFdcpaCompliance`. -/
def fdcpaPracticeViolations (request : ComplianceCheckRequest) : List ComplianceViolation :=
  fdcpaProhibitedPatterns.filterMap (fun practice =>
    if jsIncludes (strLower request.content) practice then
      some { type := ViolationType.FDCPA_HARASSMENT
             severity := Severity.high
             description := "Prohibited practice detected: " ++ practice
             regulation := "FDCPA"
             section' := some "15 U.S.C. § 1692e"
             suggestedFix := some "Remove prohibited language from communication" }
    else none)

/-- `checkFdcpaCompliance(request, customerProfile, rules)` at instant
`now`: its four violation-pushing blocks in source order (it pushes no
warnings). -/
def checkFdcpaCompliance (request : ComplianceCheckRequest)
    (customerProfile : CustomerComplianceProfile) (rules : FdcpaComplianceRule)
    (now : Int) : CheckFindings :=
  { violations := fdcpaDisclosureViolations request rules ++
      fdcpaContactViolations customerProfile rules now ++
      fdcpaSpacingViolations request customerProfile rules now ++
      fdcpaPracticeViolations request
    warnings := [] }

/-- The four risk terms scanned by `validateContent`. -/
def contentRiskTerms : List String :=
  ["urgent", "immediate action", "final notice", "legal consequences"]

/-- `validateContent(content, strategy, rules)`.  (`strategy` is accepted
but never read by the source either.) -/
def validateContent (content : String) (strategy : Strategy) (rules : ComplianceRuleSet) :
    CheckFindings :=
  let tcpaViolations : List ComplianceViolation :=
    if containsProhibitedContent content rules.tcpa.prohibitedContent then
      [{ type := ViolationType.CONTENT_PROHIBITED
         severity := Severity.high
         description := "Content contains prohibited terms"
         regulation := "TCPA"
         section' := some "47 C.F.R. § 64.1200"
         suggestedFix := some "Remove prohibited terms from content" }]
    else []
  let disclosureValidation := validateRequiredDisclosures content rules.fdcpa.requiredDisclosures
  let disclosureViolations : List ComplianceViolation :=
    if disclosureValidation.missing.length > 0 then
      [{ type := ViolationType.FDCPA_DISCLOSURE_MISSING
         severity := Severity.high
         description := "Missing required disclosures: " ++ joinComma disclosureValidation.missing
         regulation := "FDCPA"
         section' := some "15 U.S.C. § 1692e"
         suggestedFix := some "Add missing required disclosures" }]
    else []
  let foundRisks := contentRiskTerms.filter (fun term => jsIncludes (strLower content) term)
  let riskWarnings : List ComplianceWarning :=
    if foundRisks.length > 0 then
      [{ type := WarningType.CONTENT_RISK
         severity := Severity.medium
         description := "Content contains potentially concerning terms: " ++ joinComma foundRisks
         recommendation := some "Review content for compliance with harassment regulations" }]
    else []
  { violations := tcpaViolations ++ disclosureViolations, warnings := riskWarnings }

/-- The per-channel daily/weekly cap block of `checkFrequencyLimits`. -/
def freqChannelViolations (channel : Channel)
    (customerProfile : CustomerComplianceProfile) (rules : ComplianceRuleSet)
    (now : Int) : List ComplianceViolation :=
  let todayComms := customerProfile.communicationHistory.filter
    (fun c => decide (jsDay c.timestamp = jsDay now ∧ c.channel = channel))
  let weekComms := customerProfile.communicationHistory.filter
    (fun c => decide (getWeekStart now ≤ c.timestamp ∧ c.channel = channel))
  if channel = Channel.sms then
      (if todayComms.length ≥ rules.tcpa.maxDailyTexts then
        [{ type := ViolationType.TCPA_CONSENT_MISSING
           severity := Severity.medium
           description := "Daily SMS limit exceeded (" ++ toString todayComms.length ++ "/" ++
             toString rules.tcpa.maxDailyTexts ++ ")"
           regulation := "TCPA"
           section' := none
           suggestedFix := some "Wait until tomorrow to send SMS" }]
      else []) ++
      (if weekComms.length ≥ rules.tcpa.maxWeeklyTexts then
        [{ type := ViolationType.TCPA_CONSENT_MISSING
           severity := Severity.medium
           description := "Weekly SMS limit exceeded (" ++ toString weekComms.length ++ "/" ++
             toString rules.tcpa.maxWeeklyTexts ++ ")"
           regulation := "TCPA"
           section' := none
           suggestedFix := some "Wait until next week to send SMS" }]
      else [])
    else if channel = Channel.phone then
      (if todayComms.length ≥ rules.tcpa.maxDailyCalls then
        [{ type := ViolationType.TCPA_CONSENT_MISSING
           severity := Severity.medium
           description := "Daily call limit exceeded (" ++ toString todayComms.length ++ "/" ++
             toString rules.tcpa.maxDailyCalls ++ ")"
           regulation := "TCPA"
           section' := none
           suggestedFix := some "Wait until tomorrow to make call" }]
      else []) ++
      (if weekComms.length ≥ rules.tcpa.maxWeeklyCalls then
        [{ type := ViolationType.TCPA_CONSENT_MISSING
           severity := Severity.medium
           description := "Weekly call limit exceeded (" ++ toString weekComms.length ++ "/" ++
             toString rules.tcpa.maxWeeklyCalls ++ ")"
           regulation := "TCPA"
           section' := none
           suggestedFix := some "Wait until next week to make call" }]
      else [])
  else []

/-- The all-channel FDCPA daily-contact block of `checkFrequencyLimits`. -/
def freqFdcpaViolations (customerProfile : CustomerComplianceProfile)
    (rules : ComplianceRuleSet) (now : Int) : List ComplianceViolation :=
  let allTodayComms := customerProfile.communicationHistory.filter
    (fun c => decide (jsDay c.timestamp = jsDay now))
  if allTodayComms.length ≥ rules.fdcpa.maxDailyContacts then
    [{ type := ViolationType.FDCPA_HARASSMENT
       severity := Severity.high
       description := "Daily contact limit exceeded (" ++ toString allTodayComms.length ++
         "/" ++ toString rules.fdcpa.maxDailyContacts ++ ")"
       regulation := "FDCPA"
       section' := some "15 U.S.C. § 1692d"
       suggestedFix := some "Wait until tomorrow for any communication" }]
  else []

/-- The approaching-limit warning block of `checkFrequencyLimits`.  The
source threshold `todayComms.length >= rules.tcpa.maxDailyTexts * 0.8` is
encoded exactly as `5 * length ≥ 4 * maxDailyTexts` (see the header note
on `0.8`). -/
def freqApproachingWarnings (channel : Channel)
    (customerProfile : CustomerComplianceProfile) (rules : ComplianceRuleSet)
    (now : Int) : List ComplianceWarning :=
  let todayComms := customerProfile.communicationHistory.filter
    (fun c => decide (jsDay c.timestamp = jsDay now ∧ c.channel = channel))
  if channel = Channel.sms ∧ 5 * todayComms.length ≥ 4 * rules.tcpa.maxDailyTexts then
    [{ type := WarningType.FREQUENCY_LIMIT
       severity := Severity.medium
       description := "Approaching daily SMS limit (" ++ toString todayComms.length ++ "/" ++
         toString rules.tcpa.maxDailyTexts ++ ")"
       recommendation := some "Consider spacing out communications" }]
  else []

/-- `checkFrequencyLimits(customerId, channel, customerProfile, rules)` at
instant `now`: its blocks in source push order. -/
def checkFrequencyLimits (customerId : String) (channel : Channel)
    (customerProfile : CustomerComplianceProfile) (rules : ComplianceRuleSet)
    (now : Int) : CheckFindings :=
  { violations := freqChannelViolations channel customerProfile rules now ++
      freqFdcpaViolations customerProfile rules now
    warnings := freqApproachingWarnings channel customerProfile rules now }

/-- `verifyConsent(request, customerProfile, rules)` at instant `now`. -/
def verifyConsent (request : ComplianceCheckRequest)
    (customerProfile : CustomerComplianceProfile) (rules : TcpaComplianceRule)
    (now : Int) : CheckFindings :=
  if rules.consentRequired = false then { violations := [], warnings := [] }
  else
    match customerProfile.consentHistory.find?
        (fun c => decide (c.type = request.channel ∧ c.granted = true ∧ c.revokedAt = none)) with
    | none =>
        { violations :=
            [{ type := ViolationType.TCPA_CONSENT_MISSING
               severity := Severity.high
               description := "No valid consent found for " ++ channelName request.channel ++
                 " communication"
               regulation := "TCPA"
               section' := some "47 U.S.C. § 227"
               suggestedFix := some "Obtain explicit consent from customer" }]
          warnings := [] }
    | some consent =>
        let verbalWarnings : List ComplianceWarning :=
          if request.channel = Channel.phone ∧ consent.method = ConsentMethod.verbal ∧
              consent.ipAddress = none then
            [{ type := WarningType.CONSENT_EXPIRING
               severity := Severity.low
               description := "Verbal consent lacks proper documentation"
               recommendation := some "Document verbal consent with additional verification" }]
          else []
        match consent.expiresAt with
        | some e =>
            if e < now then
              { violations :=
                  [{ type := ViolationType.TCPA_CONSENT_MISSING
                     severity := Severity.high
                     description := "Consent for " ++ channelName request.channel ++
                       " expired on " ++ toString e
                     regulation := "TCPA"
                     section' := some "47 U.S.C. § 227"
                     suggestedFix := some "Renew consent from customer" }]
                warnings := [] }
            else
              let daysUntilExpiry := jsCeilDiv (e - now) 86400000
              let expiringWarnings : List ComplianceWarning :=
                if daysUntilExpiry ≤ 30 then
                  [{ type := WarningType.CONSENT_EXPIRING
                     severity := Severity.medium
                     description := "Consent for " ++ channelName request.channel ++
                       " expires in " ++ toString daysUntilExpiry ++ " days"
                     recommendation := some "Plan to renew consent before expiration" }]
                else []
              { violations := [], warnings := expiringWarnings ++ verbalWarnings }
        | none => { violations := [], warnings := verbalWarnings }

/-- `createAuditEntry(request, result, processingTimeMs)`; `now` and
`randTag` stand for `Date.now()` / `new Date()` and the random id tag. -/
def createAuditEntry (request : ComplianceCheckRequest) (result : ComplianceCheckResult)
    (processingTimeMs : Int) (now : Int) (randTag : String) : AuditEntry :=
  { id := "audit_" ++ toString now ++ "_" ++ randTag
    timestamp := now
    customerId := request.customerId
    communicationId := request.communicationId
    checkType := channelUpper request.channel ++ "_COMPLIANCE"
    result :=
      if result.violations.length > 0 then AuditResult.FAIL
      else if result.warnings.length > 0 then AuditResult.WARNING
      else AuditResult.PASS
    violations := result.violations.map (fun v => violationTypeName v.type ++ ": " ++ v.description)
    warnings := result.warnings.map (fun w => warningTypeName w.type ++ ": " ++ w.description)
    processingTimeMs := processingTimeMs }

/-- `loadComplianceRules(version)` — the static default rule set; `now`
models the `new Date().toISOString()` used for `lastUpdated`. -/
def loadComplianceRules (now : Int) (version : Option String) : ComplianceRuleSet :=
  { tcpa :=
      { callingHours := { start := 8, end' := 21 }
        maxDailyCalls := 3
        maxWeeklyCalls := 7
        maxDailyTexts := 5
        maxWeeklyTexts := 14
        consentRequired := true
        consentExpirationDays := 730
        prohibitedContent := ["threat", "harassment", "abuse", "violence"] }
    fdcpa :=
      { requiredDisclosures :=
          ["This is an attempt to collect a debt", "Name of creditor", "Amount of debt",
           "Right to dispute the debt"]
        prohibitedPractices :=
          ["violence", "arrest threat", "misrepresentation", "false legal action"]
        maxDailyContacts := 7
        maxWeeklyContacts := 21
        callFrequencyRules :=
          { minHoursBetweenCalls := 2, minDaysBetweenThirdPartyContact := 7 }
        requiredContentElements :=
          { identityDisclosure := true, purposeDisclosure := true,
            debtValidationNotice := true, rightsDisclosure := true } }
    lastUpdated := now
    version := version.getD "1.0.0" }

/-- `getCustomerComplianceProfile(customerId)` — the default profile
returned for any customer (the stub performs no database access). -/
def getCustomerComplianceProfile (customerId : String) : CustomerComplianceProfile :=
  { customerId := customerId
    contactPreferences :=
      { preferredChannel := none, contactFrequency := ContactFrequency.medium, quietHours := none }
    consentHistory := []
    communicationHistory := []
    violationHistory := []
    riskScore := 0
    lastReviewDate := none }

/-- `getNextAllowedTime(customerId, channel, timezone, customerProfile,
rules)` at instant `now`. -/
def getNextAllowedTime (customerId : String) (channel : Channel) (timezone : String)
    (customerProfile : CustomerComplianceProfile) (rules : TcpaComplianceRule)
    (now : Int) : Int :=
  let afterHours :=
    if jsHour now < rules.callingHours.start then jsSetHours now rules.callingHours.start
    else if jsHour now > rules.callingHours.end' then
      jsSetHours (jsAddDays now 1) rules.callingHours.start
    else now
  let todayComms := customerProfile.communicationHistory.filter
    (fun c => decide (jsDay c.timestamp = jsDay now ∧ c.channel = channel))
  let dailyLimit := if channel = Channel.sms then rules.maxDailyTexts else rules.maxDailyCalls
  let afterDaily :=
    if todayComms.length ≥ dailyLimit then
      jsSetHours (jsAddDays afterHours 1) rules.callingHours.start
    else afterHours
  let weekComms := customerProfile.communicationHistory.filter
    (fun c => decide (getWeekStart now ≤ c.timestamp ∧ c.channel = channel))
  let weeklyLimit := if channel = Channel.sms then rules.maxWeeklyTexts else rules.maxWeeklyCalls
  if weekComms.length ≥ weeklyLimit then
    jsSetHours (jsAddDays (getWeekStart now) 7) rules.callingHours.start
  else afterDaily

/-! ## ComplianceService.checkCompliance (src/analytics-update index) -/

/-- `generateRecommendedActions(violations, warnings)`. -/
def generateRecommendedActions (violations : List ComplianceViolation)
    (warnings : List ComplianceWarning) : List String :=
  let actions := violations.filterMap (fun v => v.suggestedFix) ++
    warnings.filterMap (fun w => w.recommendation)
  if actions.length = 0 ∧ warnings.length > 0 then
    ["Review communication for compliance best practices"]
  else actions

/-- The empty placeholder audit entry the source passes while building the
intermediate result (`auditEntry` is cast from an empty object there). -/
def emptyAuditEntry : AuditEntry :=
  { id := "", timestamp := 0, customerId := "", communicationId := "", checkType := ""
    result := AuditResult.PASS, violations := [], warnings := [], processingTimeMs := 0 }

/-- `ComplianceService.checkCompliance(request)` as a pure function of the
request, the customer profile, the rule set, the ambient clock and the
random audit-id tag.  Intra-call elapsed time is 0 under the
single-instant clock model. -/
def checkCompliance (request : ComplianceCheckRequest)
    (customerProfile : CustomerComplianceProfile) (rules : ComplianceRuleSet)
    (now : Int) (randTag : String) : ComplianceCheckResult :=
  let tcpaResult := checkTcpaCompliance request customerProfile rules.tcpa now
  let fdcpaResult := checkFdcpaCompliance request customerProfile rules.fdcpa now
  let contentResult := validateContent request.content request.strategy rules
  let consentResult := verifyConsent request customerProfile rules.tcpa now
  let frequencyResult :=
    checkFrequencyLimits request.customerId request.channel customerProfile rules now
  let allViolations := tcpaResult.violations ++ fdcpaResult.violations ++
    contentResult.violations ++ consentResult.violations ++ frequencyResult.violations
  let allWarnings := tcpaResult.warnings ++ fdcpaResult.warnings ++
    contentResult.warnings ++ consentResult.warnings ++ frequencyResult.warnings
  let canProceed := decide (allViolations.length = 0)
  let nextAllowedTime : Option Int :=
    if canProceed then none
    else some (getNextAllowedTime request.customerId request.channel
      (request.customerTimezone.getD "UTC") customerProfile rules.tcpa now)
  { compliant := canProceed
    violations := allViolations
    warnings := allWarnings
    auditEntry := createAuditEntry request
      { compliant := canProceed, violations := allViolations, warnings := allWarnings
        auditEntry := emptyAuditEntry, recommendedActions := []
        canProceed := canProceed, nextAllowedTime := nextAllowedTime }
      0 now randTag
    recommendedActions := generateRecommendedActions allViolations allWarnings
    canProceed := canProceed
    nextAllowedTime := nextAllowedTime }

/-- The `CommunicationComplianceRecord` that `checkCompliance` builds and
passes to `updateCustomerComplianceProfile` after every evaluation
(unconditionally, with `compliant` set to the verdict). -/
def communicationRecordOf (request : ComplianceCheckRequest)
    (result : ComplianceCheckResult) (now : Int) : CommunicationComplianceRecord :=
  { id := request.communicationId
    timestamp := now
    channel := request.channel
    strategy := request.strategy
    compliant := result.canProceed
    violations := (result.violations.map (fun v => violationTypeName v.type))
    warnings := (result.warnings.map (fun w => warningTypeName w.type))
    processingTimeMs := 0 }

/-! ## Communication-service utilities (src/communication-service utils) -/

/-- The message fields read by `calculateNextRetry` / `shouldRetry`;
the remaining `CommunicationMessage` fields are never read by them and
are omitted. -/
structure CommunicationMessage where
  id : String
  retryCount : Nat
  maxRetries : Nat
deriving DecidableEq, Repr

structure RetryLogic where
  maxRetries : Nat
  retryDelays : List ℚ
  backoffMultiplier : ℚ
  maxDelaySeconds : ℚ
  retryableErrors : List String
deriving DecidableEq, Repr

/-- JS `a || b` on an optional number: `undefined` and `0` are falsy.
(`NaN` is not modelled; no NaN arises from the inputs considered.) -/
def jsOrNum (a : Option ℚ) (b : ℚ) : ℚ :=
  match a with
  | some x => if x = 0 then b else x
  | none => b

/-- `calculateNextRetry(message, retryLogic)`: returns the delay in
seconds when a retry is scheduled (`some delay` stands for the source's
`Date` at now + delay seconds) and `none` for the source's `null`. -/
def calculateNextRetry (message : CommunicationMessage) (retryLogic : RetryLogic) :
    Option ℚ :=
  if message.retryCount ≥ retryLogic.maxRetries then none
  else
    some (jsOrNum (retryLogic.retryDelays.get? message.retryCount)
      (min (jsOrNum (retryLogic.retryDelays.get? 0) 60 *
          retryLogic.backoffMultiplier ^ message.retryCount)
        retryLogic.maxDelaySeconds))

/-- The non-retryable error substrings of `shouldRetry`. -/
def nonRetryableErrors : List String :=
  ["permanent_failure", "invalid_recipient", "compliance_violation", "blocked"]

/-- `shouldRetry(message, error)`. -/
def shouldRetry (message : CommunicationMessage) (error : Option String) : Bool :=
  if message.retryCount ≥ message.maxRetries then false
  else
    match error with
    | some e =>
        if nonRetryableErrors.any (fun pattern => jsIncludes (strLower e) pattern) then false
        else true
    | none => true

inductive ErrorType
  | temporary
  | permanent
  | rate_limit
  | compliance
  | unknown
deriving DecidableEq, Repr

structure ClassifiedError where
  type : ErrorType
  retryable : Bool
  message : String
deriving DecidableEq, Repr

/-- `classifyError(error)`; the input is the extracted error message
string (`error?.message || String(error)`). -/
def classifyError (errorMessage : String) : ClassifiedError :=
  let lowerError := strLower errorMessage
  if jsIncludes lowerError "rate limit" || jsIncludes lowerError "too many requests" then
    { type := ErrorType.rate_limit, retryable := true, message := errorMessage }
  else if jsIncludes lowerError "invalid recipient" || jsIncludes lowerError "blocked" ||
      jsIncludes lowerError "unsubscribed" || jsIncludes lowerError "compliance" then
    { type := if jsIncludes lowerError "compliance" then ErrorType.compliance
        else ErrorType.permanent
      retryable := false
      message := errorMessage }
  else if jsIncludes lowerError "timeout" || jsIncludes lowerError "network" ||
      jsIncludes lowerError "temporary" then
    { type := ErrorType.temporary, retryable := true, message := errorMessage }
  else
    { type := ErrorType.unknown, retryable := true, message := errorMessage }

/-! ## Claim-support definitions

Derived predicates and concrete fixtures used to state the claims.  The
counting functions repeat, verbatim, the filters used inside the embedded
check functions. -/

/-- The number of records in the profile on `now`'s calendar day for the
given channel — the `todayComms.length` count of the evaluator. -/
def todayChannelCount (p : CustomerComplianceProfile) (ch : Channel) (now : Int) : Nat :=
  (p.communicationHistory.filter
    (fun c => decide (jsDay c.timestamp = jsDay now ∧ c.channel = ch))).length

/-- The per-channel daily cap selected by the evaluator
(`channel === 'sms' ? maxDailyTexts : maxDailyCalls`). -/
def dailyLimitFor (rules : TcpaComplianceRule) (ch : Channel) : Nat :=
  if ch = Channel.sms then rules.maxDailyTexts else rules.maxDailyCalls

/-- A violation is a *daily-frequency violation* when it carries the
violation code used by the frequency checks and a description reading
"Daily … limit exceeded …".  (The code `TCPA_CONSENT_MISSING` is reused by
the source for consent, daily-cap and weekly-cap violations, so the
description prefix is what distinguishes the daily-cap ones.) -/
def isDailyFreqViolation (v : ComplianceViolation) : Bool :=
  decide (v.type = ViolationType.TCPA_CONSENT_MISSING) && strStartsWith v.description "Daily "

/-- A warning is a frequency-limit warning when it carries the
`FREQUENCY_LIMIT` code. -/
def isFrequencyWarning (w : ComplianceWarning) : Bool :=
  decide (w.type = WarningType.FREQUENCY_LIMIT)

/-- Modelled from the spec: "A channel has *valid consent* iff a record
exists with granted=true, revokedAt unset, and (expiresAt unset or in the
future)."  This is the spec-side validity notion, to be compared with what
`verifyConsent` actually does. -/
def specValidConsent (c : ConsentRecord) (ch : Channel) (now : Int) : Bool :=
  decide (c.type = ch) && c.granted && decide (c.revokedAt = none) &&
    (match c.expiresAt with
     | none => true
     | some e => decide (now < e))

/-- `{ ...r, compliant: b }` — the same record with the compliant flag
replaced. -/
def setCompliant (r : CommunicationComplianceRecord) (b : Bool) :
    CommunicationComplianceRecord :=
  { r with compliant := b }

/-- Appending one communication record to a profile (the Profile Store
append that `updateCustomerComplianceProfile` stands for). -/
def appendComplianceRecord (p : CustomerComplianceProfile)
    (r : CommunicationComplianceRecord) : CustomerComplianceProfile :=
  { p with communicationHistory := p.communicationHistory ++ [r] }

/-- The first configured retry delay when present and nonzero, else the
60-second default (the `(retryLogic.retryDelays[0] || 60)` base of the
backoff formula). -/
def specFirstDelay (l : RetryLogic) : ℚ :=
  if 0 < l.retryDelays.length ∧ l.retryDelays.getD 0 0 ≠ 0 then l.retryDelays.getD 0 0 else 60

/-- The retry-delay schedule as the (amended) spec words it: no retry once
`retryCount` reaches `maxRetries`; the delay-table entry at index
`retryCount` when that index is within the table and the entry is nonzero;
otherwise `min(firstDelay × multiplier^retryCount, maxDelaySeconds)`. -/
def specNextRetryDelay (m : CommunicationMessage) (l : RetryLogic) : Option ℚ :=
  if m.retryCount < l.maxRetries then
    if m.retryCount < l.retryDelays.length ∧ l.retryDelays.getD m.retryCount 0 ≠ 0 then
      some (l.retryDelays.getD m.retryCount 0)
    else
      some (min (specFirstDelay l * l.backoffMultiplier ^ m.retryCount) l.maxDelaySeconds)
  else none

/-- Fixture: 10:00:00.000 on calendar day 20000 (a Friday). -/
def sampleNow : Int := 20000 * 86400000 + 10 * 3600000

/-- Fixture: a communication record on channel `ch`, `i` seconds before
`sampleNow`, with the given compliant flag. -/
def sampleRecord (ch : Channel) (i : Nat) (b : Bool) : CommunicationComplianceRecord :=
  { id := "COMM-H" ++ toString i
    timestamp := sampleNow - 1000 * i
    channel := ch
    strategy := Strategy.reminder
    compliant := b
    violations := []
    warnings := []
    processingTimeMs := 5 }

/-- Fixture: an SMS request. -/
def sampleRequest : ComplianceCheckRequest :=
  { customerId := "CUST-001"
    communicationId := "COMM-001"
    content := "pay"
    channel := Channel.sms
    strategy := Strategy.reminder
    customerTimezone := none }

/-- Fixture: the default rule set loaded at a fixed instant. -/
def sampleRules : ComplianceRuleSet := loadComplianceRules 0 none

/-- Fixture: profile with `n` compliant same-day SMS records. -/
def smsProfileWith (n : Nat) : CustomerComplianceProfile :=
  { getCustomerComplianceProfile "CUST-001" with
    communicationHistory := (List.range n).map (fun i => sampleRecord Channel.sms (i + 1) true) }

/-- The nine classifier substrings of `classifyError`, in scan order. -/
def classifyPatterns : List String :=
  ["rate limit", "too many requests", "invalid recipient", "blocked", "unsubscribed",
   "compliance", "timeout", "network", "temporary"]

/-- Fixture: 23:00:00.000 on calendar day 20000 (outside calling hours). -/
def sampleNight : Int := 20000 * 86400000 + 23 * 3600000

/-- Fixture: an expired granted SMS consent (expired one hour before
`sampleNow`). -/
def expiredSmsConsent : ConsentRecord :=
  { id := "CON-1"
    type := Channel.sms
    granted := true
    timestamp := sampleNow - 400 * 86400000
    method := ConsentMethod.written
    ipAddress := none
    userAgent := none
    expiresAt := some (sampleNow - 3600000)
    revokedAt := none }

/-- Fixture: a currently valid granted SMS consent (expires 100 days after
`sampleNow`). -/
def validSmsConsent : ConsentRecord :=
  { id := "CON-2"
    type := Channel.sms
    granted := true
    timestamp := sampleNow - 86400000
    method := ConsentMethod.written
    ipAddress := none
    userAgent := none
    expiresAt := some (sampleNow + 100 * 86400000)
    revokedAt := none }

/-- Fixture: profile whose consent history lists the expired record before
the valid one. -/
def shadowedConsentProfile : CustomerComplianceProfile :=
  { getCustomerComplianceProfile "CUST-001" with
    consentHistory := [expiredSmsConsent, validSmsConsent] }

/-- Fixture: rule set whose phone daily cap is 5 (so that 4 calls sit at
80% of the cap while under it). -/
def phoneCapRules : ComplianceRuleSet :=
  { sampleRules with tcpa := { sampleRules.tcpa with maxDailyCalls := 5 } }

/-- Fixture: profile with 4 compliant same-day phone records. -/
def phoneProfileFour : CustomerComplianceProfile :=
  { getCustomerComplianceProfile "CUST-001" with
    communicationHistory :=
      (List.range 4).map (fun i => sampleRecord Channel.phone (i + 1) true) }

/-- Fixture: a phone request. -/
def phoneRequest : ComplianceCheckRequest :=
  { sampleRequest with channel := Channel.phone }

/-! ## Theorems -/

/-- C1: for every compliance evaluation, `canProceed` is true iff the
accumulated violation list is empty — warnings never block, and a
non-empty violation list always blocks. -/
theorem checkCompliance_canProceed_iff_no_violations
    (request : ComplianceCheckRequest) (p : CustomerComplianceProfile)
    (rules : ComplianceRuleSet) (now : Int) (randTag : String) :
    (checkCompliance request p rules now randTag).canProceed = true ↔
      (checkCompliance request p rules now randTag).violations = [] := by
  simp [checkCompliance, List.length_eq_zero]

/-- C8: `classifyError` marks an error retryable exactly when its
classified type is `temporary`, `rate_limit` or `unknown` (equivalently,
not retryable exactly for `permanent` and `compliance`), and a message
matching none of the classifier patterns defaults to type `unknown`,
retryable. -/
theorem classifyError_retryable_iff_type (e : String) :
    ((classifyError e).retryable =
      decide ((classifyError e).type = ErrorType.temporary ∨
        (classifyError e).type = ErrorType.rate_limit ∨
        (classifyError e).type = ErrorType.unknown)) ∧
    ((∀ pat ∈ classifyPatterns, jsIncludes (strLower e) pat = false) →
      (classifyError e).type = ErrorType.unknown ∧ (classifyError e).retryable = true) := by
  constructor
  · simp only [classifyError]
    split_ifs <;> simp_all
  · intro hnone
    have h1 := hnone "rate limit" (by simp [classifyPatterns])
    have h2 := hnone "too many requests" (by simp [classifyPatterns])
    have h3 := hnone "invalid recipient" (by simp [classifyPatterns])
    have h4 := hnone "blocked" (by simp [classifyPatterns])
    have h5 := hnone "unsubscribed" (by simp [classifyPatterns])
    have h6 := hnone "compliance" (by simp [classifyPatterns])
    have h7 := hnone "timeout" (by simp [classifyPatterns])
    have h8 := hnone "network" (by simp [classifyPatterns])
    have h9 := hnone "temporary" (by simp [classifyPatterns])
    simp only [classifyError]
    simp [h1, h2, h3, h4, h5, h6, h7, h8, h9]

/-- Witness for C8 at a concrete unclassifiable message. -/
theorem classifyError_retryable_iff_type_witness :
    (∀ pat ∈ classifyPatterns, jsIncludes (strLower "mystery failure 17") pat = false) ∧
    ((classifyError "mystery failure 17").type = ErrorType.unknown ∧
      (classifyError "mystery failure 17").retryable = true) :=
  ⟨by decide, (classifyError_retryable_iff_type "mystery failure 17").2 (by decide)⟩

/-- C10: the rate-limit patterns are scanned before the
permanent/compliance patterns, so a message containing both a rate-limit
phrase and a compliance/permanent phrase classifies as `rate_limit`,
retryable. -/
theorem classifyError_rate_limit_precedence (e : String)
    (hrl : jsIncludes (strLower e) "rate limit" = true ∨
      jsIncludes (strLower e) "too many requests" = true)
    (hcp : jsIncludes (strLower e) "compliance" = true ∨
      jsIncludes (strLower e) "blocked" = true ∨
      jsIncludes (strLower e) "invalid recipient" = true ∨
      jsIncludes (strLower e) "unsubscribed" = true) :
    (classifyError e).type = ErrorType.rate_limit ∧ (classifyError e).retryable = true := by
  simp only [classifyError]
  have h : (jsIncludes (strLower e) "rate limit" ||
      jsIncludes (strLower e) "too many requests") = true := by
    rcases hrl with h | h <;> simp [h]
  simp [h]

/-- Witness for C10 at a message carrying both phrase kinds. -/
theorem classifyError_rate_limit_precedence_witness :
    (jsIncludes (strLower "Rate limit while blocked for compliance") "rate limit" = true ∨
      jsIncludes (strLower "Rate limit while blocked for compliance") "too many requests" = true) ∧
    ((classifyError "Rate limit while blocked for compliance").type = ErrorType.rate_limit ∧
      (classifyError "Rate limit while blocked for compliance").retryable = true) :=
  ⟨Or.inl (by decide),
    classifyError_rate_limit_precedence "Rate limit while blocked for compliance"
      (Or.inl (by decide)) (Or.inl (by decide))⟩

/-- C7 counterexample: with delay table `[0, 300]`, `retryCount = 0 <
maxRetries = 3`, the index is within the table and the entry is `0`, yet
the computed delay is `min(60 · 2^0, 900) = 60`, not the table entry `0`
(JS `||` treats the `0` entry as falsy). -/
theorem calculateNextRetry_zero_entry_counterexample :
    (RetryLogic.mk 3 [0, 300] 2 900 []).retryDelays.get?
        (CommunicationMessage.mk "MSG-1" 0 3).retryCount = some 0 ∧
    (CommunicationMessage.mk "MSG-1" 0 3).retryCount <
      (RetryLogic.mk 3 [0, 300] 2 900 []).maxRetries ∧
    calculateNextRetry (CommunicationMessage.mk "MSG-1" 0 3)
      (RetryLogic.mk 3 [0, 300] 2 900 []) = some 60 ∧
    (60 : ℚ) ≠ 0 := by
  refine ⟨rfl, by norm_num, ?_, by norm_num⟩
  norm_num [calculateNextRetry, jsOrNum]

/-- Helper for C7: the JS `table[i] || fallback` read of the delay table,
rephrased through the table length and `getD`. -/
theorem jsOrNum_get?_eq (l : List ℚ) (n : Nat) (fb : ℚ) :
    jsOrNum (l.get? n) fb = if n < l.length ∧ l.getD n 0 ≠ 0 then l.getD n 0 else fb := by
  cases h : l.get? n with
  | none =>
      have hlen : l.length ≤ n := List.get?_eq_none.mp h
      simp only [jsOrNum]
      rw [if_neg (fun hc => absurd hc.1 (by omega))]
  | some d =>
      obtain ⟨hlt, -⟩ := List.get?_eq_some.mp h
      have hgetD : l.getD n 0 = d := by
        rw [List.getD_eq_getElem?_getD, ← List.get?_eq_getElem?, h]
        rfl
      simp only [jsOrNum]
      by_cases hz : d = 0
      · rw [if_pos hz, if_neg (fun hc => hc.2 (hgetD.trans hz))]
      · rw [if_neg hz, if_pos ⟨hlt, by rw [hgetD]; exact hz⟩, hgetD]

/-- C7 amended: the scheduler returns no retry time iff `retryCount ≥
maxRetries`; otherwise the delay is the table entry at index `retryCount`
when that index is within the table *and the entry is nonzero*, and
otherwise `min(first × multiplier^retryCount, maxDelaySeconds)` where
`first` is the first table entry if present and nonzero, else 60. -/
theorem calculateNextRetry_eq_spec (m : CommunicationMessage) (l : RetryLogic) :
    calculateNextRetry m l = specNextRetryDelay m l := by
  simp only [calculateNextRetry, specNextRetryDelay, specFirstDelay, jsOrNum_get?_eq]
  rcases Nat.lt_or_ge m.retryCount l.maxRetries with hlt | hge
  · rw [if_neg (by omega), if_pos hlt, apply_ite Option.some]
  · rw [if_pos hge, if_neg (by omega)]

/-- C4 counterexample: the same (request, profile snapshot, rule set),
evaluated at two different wall-clock instants of the same day (10:00 and
23:00) with the same random tag, yields different verdicts — the
evaluator reads the ambient clock, so equality of the three claimed
inputs does not determine the result. -/
theorem checkCompliance_clock_dependence_counterexample :
    checkCompliance sampleRequest (getCustomerComplianceProfile "CUST-001") sampleRules
        sampleNow "tag" ≠
      checkCompliance sampleRequest (getCustomerComplianceProfile "CUST-001") sampleRules
        sampleNight "tag" := by
  decide

/-- C4 amended: the evaluator is deterministic once the ambient clock is
also fixed, and every verdict field other than the audit entry id (which
embeds the random tag) is independent of the randomness: two evaluations
of the same (request, profile, rule set, instant) agree on violations,
warnings, canProceed, compliant, nextAllowedTime, recommendedActions and
on the audit entry result, timestamp and recorded reasons. -/
theorem checkCompliance_deterministic_given_clock
    (request : ComplianceCheckRequest) (p : CustomerComplianceProfile)
    (rules : ComplianceRuleSet) (now : Int) (randTag1 randTag2 : String) :
    (checkCompliance request p rules now randTag1).violations =
        (checkCompliance request p rules now randTag2).violations ∧
    (checkCompliance request p rules now randTag1).warnings =
        (checkCompliance request p rules now randTag2).warnings ∧
    (checkCompliance request p rules now randTag1).canProceed =
        (checkCompliance request p rules now randTag2).canProceed ∧
    (checkCompliance request p rules now randTag1).compliant =
        (checkCompliance request p rules now randTag2).compliant ∧
    (checkCompliance request p rules now randTag1).nextAllowedTime =
        (checkCompliance request p rules now randTag2).nextAllowedTime ∧
    (checkCompliance request p rules now randTag1).recommendedActions =
        (checkCompliance request p rules now randTag2).recommendedActions ∧
    (checkCompliance request p rules now randTag1).auditEntry.result =
        (checkCompliance request p rules now randTag2).auditEntry.result ∧
    (checkCompliance request p rules now randTag1).auditEntry.timestamp =
        (checkCompliance request p rules now randTag2).auditEntry.timestamp ∧
    (checkCompliance request p rules now randTag1).auditEntry.violations =
        (checkCompliance request p rules now randTag2).auditEntry.violations ∧
    (checkCompliance request p rules now randTag1).auditEntry.warnings =
        (checkCompliance request p rules now randTag2).auditEntry.warnings :=
  ⟨rfl, rfl, rfl, rfl, rfl, rfl, rfl, rfl, rfl, rfl⟩

/-- C3 counterexample: on a profile with 4 compliant same-day SMS records
(default daily cap 5), the frequency check passes; appending one *blocked*
record (`compliant = false`, same day, same channel) flips the next
frequency check to a violation — so blocked attempts do count against the
contact budget. -/
theorem noncompliant_record_changes_frequency_check :
    (sampleRecord Channel.sms 99 false).compliant = false ∧
    (checkFrequencyLimits "CUST-001" Channel.sms (smsProfileWith 4) sampleRules
      sampleNow).violations = [] ∧
    (checkFrequencyLimits "CUST-001" Channel.sms
      (appendComplianceRecord (smsProfileWith 4) (sampleRecord Channel.sms 99 false))
      sampleRules sampleNow).violations ≠ [] := by
  refine ⟨rfl, by decide, by decide⟩

/-- C3 amended: a `CommunicationComplianceRecord` is appended for every
evaluated attempt with its `compliant` flag recording the verdict, and the
frequency check reads only timestamps and channels — its outcome is
invariant under the record's `compliant` flag (so blocked attempts count
exactly like successful ones). -/
theorem checkFrequencyLimits_ignores_compliant_flag
    (customerId : String) (channel : Channel) (p : CustomerComplianceProfile)
    (rules : ComplianceRuleSet) (now : Int) (r : CommunicationComplianceRecord) (b : Bool) :
    checkFrequencyLimits customerId channel (appendComplianceRecord p (setCompliant r b))
        rules now =
      checkFrequencyLimits customerId channel (appendComplianceRecord p r) rules now := by
  have key : ∀ q : CommunicationComplianceRecord → Bool, q (setCompliant r b) = q r →
      (List.filter q (p.communicationHistory ++ [setCompliant r b])).length =
        (List.filter q (p.communicationHistory ++ [r])).length := by
    intro q hq
    rw [List.filter_append, List.filter_append, List.length_append, List.length_append]
    congr 1
    rw [List.filter_cons, List.filter_cons, hq]
    split <;> rfl
  simp only [checkFrequencyLimits, freqChannelViolations, freqFdcpaViolations,
    freqApproachingWarnings, appendComplianceRecord]
  rw [key (fun c => decide (jsDay c.timestamp = jsDay now ∧ c.channel = channel)) rfl,
    key (fun c => decide (getWeekStart now ≤ c.timestamp ∧ c.channel = channel)) rfl,
    key (fun c => decide (jsDay c.timestamp = jsDay now)) rfl]

/-- C5 counterexample: a profile whose consent history holds an expired
granted SMS record *before* a currently valid one still draws a consent
violation — `verifyConsent` inspects only the first granted, non-revoked
record, so a valid record does not guarantee the absence of a
consent-missing violation. -/
theorem verifyConsent_violation_despite_valid_consent :
    sampleRules.tcpa.consentRequired = true ∧
    validSmsConsent ∈ shadowedConsentProfile.consentHistory ∧
    specValidConsent validSmsConsent Channel.sms sampleNow = true ∧
    (verifyConsent sampleRequest shadowedConsentProfile sampleRules.tcpa
      sampleNow).violations ≠ [] := by
  refine ⟨rfl, by decide, by decide, by decide⟩

/-- C5 amended: when consent is required, `verifyConsent` reports no
consent violation iff the *first* consent record for the channel with
granted=true and revokedAt unset exists and is unexpired (expiresAt unset
or not in the past); later valid records cannot repair an expired first
match. -/
theorem verifyConsent_first_granted_decides
    (request : ComplianceCheckRequest) (p : CustomerComplianceProfile)
    (rules : TcpaComplianceRule) (now : Int) (hreq : rules.consentRequired = true) :
    (verifyConsent request p rules now).violations = [] ↔
      ∃ c, p.consentHistory.find?
          (fun c => decide (c.type = request.channel ∧ c.granted = true ∧ c.revokedAt = none)) =
          some c ∧
        (c.expiresAt = none ∨ ∃ e, c.expiresAt = some e ∧ ¬e < now) := by
  simp only [verifyConsent]
  rw [if_neg (by simp [hreq])]
  cases hf : p.consentHistory.find?
      (fun c => decide (c.type = request.channel ∧ c.granted = true ∧ c.revokedAt = none)) with
  | none => simp
  | some c =>
      dsimp only
      cases he : c.expiresAt with
      | none => simp [he]
      | some e =>
          dsimp only
          by_cases hlt : e < now
          · rw [if_pos hlt]
            simp [he, hlt]
          · rw [if_neg hlt]
            simp [he, hlt]
            omega

/-- Witness for C5 amended, on the shadowed-consent profile. -/
theorem verifyConsent_first_granted_decides_witness :
    sampleRules.tcpa.consentRequired = true ∧
    ((verifyConsent sampleRequest shadowedConsentProfile sampleRules.tcpa
        sampleNow).violations = [] ↔
      ∃ c, shadowedConsentProfile.consentHistory.find?
          (fun c => decide (c.type = sampleRequest.channel ∧ c.granted = true ∧
            c.revokedAt = none)) = some c ∧
        (c.expiresAt = none ∨ ∃ e, c.expiresAt = some e ∧ ¬e < sampleNow)) :=
  ⟨rfl, verifyConsent_first_granted_decides sampleRequest shadowedConsentProfile
    sampleRules.tcpa sampleNow rfl⟩

/-- C9 counterexample: a phone evaluation at exactly 80% of the phone
daily cap (4 of 5 calls today, under the cap) produces *no*
frequency-limit warning — the 80% warning exists only for SMS. -/
theorem checkCompliance_no_phone_frequency_warning :
    5 * todayChannelCount phoneProfileFour Channel.phone sampleNow ≥
        4 * phoneCapRules.tcpa.maxDailyCalls ∧
    todayChannelCount phoneProfileFour Channel.phone sampleNow <
        phoneCapRules.tcpa.maxDailyCalls ∧
    ((checkCompliance phoneRequest phoneProfileFour phoneCapRules sampleNow "tag").warnings.any
      isFrequencyWarning) = false := by
  refine ⟨by decide, by decide, by decide⟩

/-- C9 amended: the approaching-limit warning fires only for SMS: an SMS
evaluation whose same-day SMS count reaches 80% of `maxDailyTexts` gets a
FREQUENCY_LIMIT warning, while an evaluation on any other channel never
gets one, whatever the counts. -/
theorem checkFrequencyLimits_warning_sms_only
    (customerId : String) (ch : Channel) (p : CustomerComplianceProfile)
    (rules : ComplianceRuleSet) (now : Int) :
    (ch = Channel.sms → 5 * todayChannelCount p Channel.sms now ≥ 4 * rules.tcpa.maxDailyTexts →
      ((checkFrequencyLimits customerId ch p rules now).warnings.any isFrequencyWarning) =
        true) ∧
    (ch ≠ Channel.sms →
      ((checkFrequencyLimits customerId ch p rules now).warnings.any isFrequencyWarning) =
        false) := by
  constructor
  · rintro rfl hcnt
    simp only [checkFrequencyLimits, freqApproachingWarnings]
    rw [if_pos ⟨trivial, hcnt⟩]
    rfl
  · intro hne
    simp only [checkFrequencyLimits, freqApproachingWarnings]
    rw [if_neg (fun hc => hne hc.1)]
    rfl

/-- Witness for C9 amended at 4 of 5 SMS messages today. -/
theorem checkFrequencyLimits_warning_sms_only_witness :
    5 * todayChannelCount (smsProfileWith 4) Channel.sms sampleNow ≥
        4 * sampleRules.tcpa.maxDailyTexts ∧
    ((checkFrequencyLimits "CUST-001" Channel.sms (smsProfileWith 4) sampleRules
      sampleNow).warnings.any isFrequencyWarning) = true :=
  ⟨by decide,
    (checkFrequencyLimits_warning_sms_only "CUST-001" Channel.sms (smsProfileWith 4)
      sampleRules sampleNow).1 rfl (by decide)⟩

/-- Helper for C6: setting the clock to hour `s` today cannot move time
backwards while the current hour is below `s`. -/
theorem le_jsSetHours_self (t s : Int) (h : jsHour t < s) : t ≤ jsSetHours t s := by
  unfold jsHour jsSetHours jsDay at *
  omega

/-- Helper for C6: tomorrow at any nonnegative hour `s` of a day not
before `t`'s is not before `t`. -/
theorem le_jsSetHours_tomorrow (t u s : Int) (ht : t ≤ u) (hs : 0 ≤ s) :
    t ≤ jsSetHours (jsAddDays u 1) s := by
  unfold jsSetHours jsAddDays jsDay
  omega

/-- Helper for C6: next week's start day at any nonnegative hour is not
before `t`. -/
theorem le_jsSetHours_next_week (t s : Int) (hs : 0 ≤ s) :
    t ≤ jsSetHours (jsAddDays (getWeekStart t) 7) s := by
  unfold jsSetHours jsAddDays jsDay getWeekStart jsDayOfWeek jsAddDays jsDay
  omega

/-- Helper for C6: `getNextAllowedTime` never returns an instant before
`now`, for any combination of calling-hours, daily-cap and weekly-cap
adjustments, provided the configured window-start hour is nonnegative. -/
theorem getNextAllowedTime_ge (customerId : String) (channel : Channel) (timezone : String)
    (p : CustomerComplianceProfile) (rules : TcpaComplianceRule) (now : Int)
    (hs : 0 ≤ rules.callingHours.start) :
    now ≤ getNextAllowedTime customerId channel timezone p rules now := by
  simp only [getNextAllowedTime]
  split_ifs with h1 h2 h3 h4 h5 h6 h7 h8 h9 h10 h11 h12 <;>
    first
      | exact le_jsSetHours_next_week now rules.callingHours.start hs
      | exact le_jsSetHours_tomorrow now _ rules.callingHours.start
          (le_jsSetHours_self now rules.callingHours.start (by assumption)) hs
      | exact le_jsSetHours_tomorrow now _ rules.callingHours.start
          (le_jsSetHours_tomorrow now now rules.callingHours.start le_rfl hs) hs
      | exact le_jsSetHours_tomorrow now now rules.callingHours.start le_rfl hs
      | exact le_jsSetHours_self now rules.callingHours.start (by assumption)
      | exact le_rfl

/-- C6: whenever an evaluation is blocked and reports a `nextAllowedTime`,
that time is at or after the evaluation instant (given the configured
calling-window start hour is nonnegative, as in the loaded rule set). -/
theorem checkCompliance_nextAllowedTime_ge_now
    (request : ComplianceCheckRequest) (p : CustomerComplianceProfile)
    (rules : ComplianceRuleSet) (now : Int) (randTag : String)
    (hs : 0 ≤ rules.tcpa.callingHours.start) (t : Int)
    (ht : (checkCompliance request p rules now randTag).nextAllowedTime = some t) :
    now ≤ t := by
  simp only [checkCompliance] at ht
  split_ifs at ht
  have := Option.some.inj ht
  subst this
  exact getNextAllowedTime_ge request.customerId request.channel
    (request.customerTimezone.getD "UTC") p rules.tcpa now hs

/-- Witness for C6: the empty-profile SMS evaluation at 10:00 is blocked
(missing consent) and reports `nextAllowedTime = sampleNow` itself. -/
theorem checkCompliance_nextAllowedTime_ge_now_witness :
    (0 : Int) ≤ sampleRules.tcpa.callingHours.start ∧
    (checkCompliance sampleRequest (getCustomerComplianceProfile "CUST-001") sampleRules
      sampleNow "tag").nextAllowedTime = some sampleNow ∧
    sampleNow ≤ sampleNow :=
  ⟨by decide, by decide,
    checkCompliance_nextAllowedTime_ge_now sampleRequest
      (getCustomerComplianceProfile "CUST-001") sampleRules sampleNow "tag" (by decide)
      sampleNow (by decide)⟩

/-- C2 helper: a description starting with the literal `Daily `. -/
theorem strStartsWith_daily_daily (x : String) :
    strStartsWith ("Daily " ++ x) "Daily " = true := rfl

theorem strStartsWith_weekly_daily (x : String) :
    strStartsWith ("Weekly " ++ x) "Daily " = false := rfl

theorem strStartsWith_missing_daily (x : String) :
    strStartsWith ("Missing required consent for " ++ x) "Daily " = false := rfl

theorem strStartsWith_consentfor_daily (x : String) :
    strStartsWith ("Consent for " ++ x) "Daily " = false := rfl

theorem strStartsWith_novalid_daily (x : String) :
    strStartsWith ("No valid consent found for " ++ x) "Daily " = false := rfl

theorem strStartsWith_dailySms_daily (x : String) :
    strStartsWith ("Daily SMS limit exceeded (" ++ x) "Daily " = true := rfl

theorem strStartsWith_dailyCall_daily (x : String) :
    strStartsWith ("Daily call limit exceeded (" ++ x) "Daily " = true := rfl

theorem strStartsWith_weeklySms_daily (x : String) :
    strStartsWith ("Weekly SMS limit exceeded (" ++ x) "Daily " = false := rfl

theorem strStartsWith_weeklyCall_daily (x : String) :
    strStartsWith ("Weekly call limit exceeded (" ++ x) "Daily " = false := rfl

/-- C2 helper: the consent block of the TCPA check never produces a
daily-frequency violation. -/
theorem anyDaily_tcpaConsent (request : ComplianceCheckRequest)
    (p : CustomerComplianceProfile) (rules : TcpaComplianceRule) (now : Int) :
    (tcpaConsentViolations request p rules now).any isDailyFreqViolation = false := by
  unfold tcpaConsentViolations
  repeat' split
  all_goals
    simp [isDailyFreqViolation, String.append_assoc, strStartsWith_missing_daily,
      strStartsWith_consentfor_daily]

/-- C2 helper: the calling-hours block never produces a daily-frequency
violation. -/
theorem anyDaily_tcpaHour (rules : TcpaComplianceRule) (now : Int) :
    (tcpaHourViolations rules now).any isDailyFreqViolation = false := by
  unfold tcpaHourViolations
  split
  · simp [isDailyFreqViolation]
  · rfl

/-- C2 helper: the prohibited-content block never produces a
daily-frequency violation. -/
theorem anyDaily_tcpaContent (request : ComplianceCheckRequest) (rules : TcpaComplianceRule) :
    (tcpaContentViolations request rules).any isDailyFreqViolation = false := by
  unfold tcpaContentViolations
  split
  · simp [isDailyFreqViolation]
  · rfl

/-- C2 helper: the TCPA per-channel frequency block produces a
daily-frequency violation exactly when the channel is SMS or phone and
today's same-channel count has reached that channel's daily cap. -/
theorem anyDaily_tcpaFrequency (request : ComplianceCheckRequest)
    (p : CustomerComplianceProfile) (rules : TcpaComplianceRule) (now : Int) :
    (tcpaFrequencyViolations request p rules now).any isDailyFreqViolation =
      decide ((request.channel = Channel.sms ∨ request.channel = Channel.phone) ∧
        dailyLimitFor rules request.channel ≤ todayChannelCount p request.channel now) := by
  simp only [tcpaFrequencyViolations, dailyLimitFor, todayChannelCount]
  split_ifs with h1 h2 h3 h4 h5 <;>
    simp_all [isDailyFreqViolation, List.any_append, String.append_assoc,
      strStartsWith_daily_daily, strStartsWith_weekly_daily]

/-- C2 helper: the FDCPA check never produces a daily-frequency violation
(all its violations carry other violation codes). -/
theorem anyDaily_filterMap_harassment (pats : List String)
    (f : String → Option ComplianceViolation)
    (hf : ∀ s v, f s = some v → v.type = ViolationType.FDCPA_HARASSMENT) :
    (pats.filterMap f).any isDailyFreqViolation = false := by
  induction pats with
  | nil => rfl
  | cons a as ih =>
      rw [List.filterMap_cons]
      cases hfa : f a with
      | none => exact ih
      | some v =>
          rw [List.any_cons, ih, Bool.or_false]
          simp [isDailyFreqViolation, hf a v hfa]

theorem anyDaily_checkFdcpa (request : ComplianceCheckRequest)
    (p : CustomerComplianceProfile) (rules : FdcpaComplianceRule) (now : Int) :
    (checkFdcpaCompliance request p rules now).violations.any isDailyFreqViolation = false := by
  have hpractice :
      (fdcpaPracticeViolations request).any isDailyFreqViolation = false := by
    refine anyDaily_filterMap_harassment _ _ ?_
    intro s v h
    by_cases hocc : jsIncludes (strLower request.content) s = true
    · rw [if_pos hocc] at h
      exact (Option.some.inj h) ▸ rfl
    · simp [hocc] at h
  simp only [checkFdcpaCompliance, List.any_append, hpractice, Bool.or_false]
  have hdisc : (fdcpaDisclosureViolations request rules).any isDailyFreqViolation = false := by
    simp only [fdcpaDisclosureViolations]
    split
    · simp [isDailyFreqViolation]
    · rfl
  have hcontact : (fdcpaContactViolations p rules now).any isDailyFreqViolation = false := by
    simp only [fdcpaContactViolations]
    split
    · simp [isDailyFreqViolation]
    · rfl
  have hspacing :
      (fdcpaSpacingViolations request p rules now).any isDailyFreqViolation = false := by
    simp only [fdcpaSpacingViolations]
    repeat' split
    all_goals simp [isDailyFreqViolation]
  rw [hdisc, hcontact, hspacing]
  rfl

/-- C2 helper: content validation never produces a daily-frequency
violation. -/
theorem anyDaily_validateContent (content : String) (strategy : Strategy)
    (rules : ComplianceRuleSet) :
    (validateContent content strategy rules).violations.any isDailyFreqViolation = false := by
  simp only [validateContent]
  repeat' split
  all_goals simp_all [isDailyFreqViolation, List.any_append]

/-- C2 helper: consent verification never produces a daily-frequency
violation. -/
theorem anyDaily_verifyConsent (request : ComplianceCheckRequest)
    (p : CustomerComplianceProfile) (rules : TcpaComplianceRule) (now : Int) :
    (verifyConsent request p rules now).violations.any isDailyFreqViolation = false := by
  simp only [verifyConsent]
  repeat' split
  all_goals
    simp [isDailyFreqViolation, String.append_assoc, strStartsWith_novalid_daily,
      strStartsWith_consentfor_daily]

/-- C2 helper: the per-channel block of `checkFrequencyLimits` produces a
daily-frequency violation exactly when the channel is SMS or phone and
today's same-channel count has reached that channel's daily cap. -/
theorem anyDaily_freqChannel (channel : Channel) (p : CustomerComplianceProfile)
    (rules : ComplianceRuleSet) (now : Int) :
    (freqChannelViolations channel p rules now).any isDailyFreqViolation =
      decide ((channel = Channel.sms ∨ channel = Channel.phone) ∧
        dailyLimitFor rules.tcpa channel ≤ todayChannelCount p channel now) := by
  simp only [freqChannelViolations, dailyLimitFor, todayChannelCount]
  split_ifs with h1 h2 h3 h4 h5 h6 h7 h8 <;>
    simp_all [isDailyFreqViolation, List.any_append, String.append_assoc,
      strStartsWith_dailySms_daily, strStartsWith_dailyCall_daily,
      strStartsWith_weeklySms_daily, strStartsWith_weeklyCall_daily]

/-- C2 helper: the all-channel FDCPA block of `checkFrequencyLimits`
never produces a daily-frequency violation. -/
theorem anyDaily_freqFdcpa (p : CustomerComplianceProfile) (rules : ComplianceRuleSet)
    (now : Int) :
    (freqFdcpaViolations p rules now).any isDailyFreqViolation = false := by
  simp only [freqFdcpaViolations]
  split
  · simp [isDailyFreqViolation]
  · rfl

/-- C2 helper: across the whole TCPA check, a daily-frequency violation
appears exactly when the channel is SMS or phone and today's same-channel
count has reached that channel's daily cap. -/
theorem anyDaily_checkTcpa (request : ComplianceCheckRequest)
    (p : CustomerComplianceProfile) (rules : TcpaComplianceRule) (now : Int) :
    (checkTcpaCompliance request p rules now).violations.any isDailyFreqViolation =
      decide ((request.channel = Channel.sms ∨ request.channel = Channel.phone) ∧
        dailyLimitFor rules request.channel ≤ todayChannelCount p request.channel now) := by
  simp only [checkTcpaCompliance, List.any_append, anyDaily_tcpaConsent, anyDaily_tcpaHour,
    anyDaily_tcpaContent, anyDaily_tcpaFrequency, Bool.false_or, Bool.or_false]

/-- C2 helper: across the whole frequency-limit check, a daily-frequency
violation appears exactly under the same condition. -/
theorem anyDaily_checkFreq (customerId : String) (channel : Channel)
    (p : CustomerComplianceProfile) (rules : ComplianceRuleSet) (now : Int) :
    (checkFrequencyLimits customerId channel p rules now).violations.any isDailyFreqViolation =
      decide ((channel = Channel.sms ∨ channel = Channel.phone) ∧
        dailyLimitFor rules.tcpa channel ≤ todayChannelCount p channel now) := by
  simp only [checkFrequencyLimits, List.any_append, anyDaily_freqChannel, anyDaily_freqFdcpa,
    Bool.or_false]

/-- C2: with exactly `dailyLimit` same-channel records timestamped today
on an SMS or phone channel, the evaluation carries a daily-frequency
violation; with exactly `dailyLimit - 1` such records it carries none —
the cap rejects at reaching the cap, not after. -/
theorem checkCompliance_daily_cap_boundary (request : ComplianceCheckRequest)
    (p : CustomerComplianceProfile) (rules : ComplianceRuleSet) (now : Int) (randTag : String)
    (hch : request.channel = Channel.sms ∨ request.channel = Channel.phone) :
    (todayChannelCount p request.channel now = dailyLimitFor rules.tcpa request.channel →
      ((checkCompliance request p rules now randTag).violations.any isDailyFreqViolation) =
        true) ∧
    (todayChannelCount p request.channel now + 1 = dailyLimitFor rules.tcpa request.channel →
      ((checkCompliance request p rules now randTag).violations.any isDailyFreqViolation) =
        false) := by
  have hall : (checkCompliance request p rules now randTag).violations.any isDailyFreqViolation =
      decide ((request.channel = Channel.sms ∨ request.channel = Channel.phone) ∧
        dailyLimitFor rules.tcpa request.channel ≤
          todayChannelCount p request.channel now) := by
    simp only [checkCompliance, List.any_append, anyDaily_checkTcpa, anyDaily_checkFdcpa,
      anyDaily_validateContent, anyDaily_verifyConsent, anyDaily_checkFreq, Bool.or_false,
      Bool.false_or, Bool.or_self]
  constructor
  · intro hcount
    rw [hall]
    exact decide_eq_true ⟨hch, by omega⟩
  · intro hcount
    rw [hall]
    exact decide_eq_false (fun hc => absurd hc.2 (by omega))

/-- Witness for C2: at the default cap of 5 daily SMS, a profile with 5
same-day SMS records draws the daily-frequency violation and one with 4
does not. -/
theorem checkCompliance_daily_cap_boundary_witness :
    (sampleRequest.channel = Channel.sms ∨ sampleRequest.channel = Channel.phone) ∧
    todayChannelCount (smsProfileWith 5) sampleRequest.channel sampleNow =
        dailyLimitFor sampleRules.tcpa sampleRequest.channel ∧
    ((checkCompliance sampleRequest (smsProfileWith 5) sampleRules sampleNow
        "tag").violations.any isDailyFreqViolation) = true ∧
    todayChannelCount (smsProfileWith 4) sampleRequest.channel sampleNow + 1 =
        dailyLimitFor sampleRules.tcpa sampleRequest.channel ∧
    ((checkCompliance sampleRequest (smsProfileWith 4) sampleRules sampleNow
        "tag").violations.any isDailyFreqViolation) = false :=
  ⟨Or.inl rfl, by decide,
    (checkCompliance_daily_cap_boundary sampleRequest (smsProfileWith 5) sampleRules sampleNow
      "tag" (Or.inl rfl)).1 (by decide),
    by decide,
    (checkCompliance_daily_cap_boundary sampleRequest (smsProfileWith 4) sampleRules sampleNow
      "tag" (Or.inl rfl)).2 (by decide)⟩
